import Mathlib

/-!
Shallow embedding of the boundary layer of `petra_grid_py`:
the `Filey` stream source (src/filey.rs), the `Grid` exposition,
the `to_pyerr` error translator and the `read_grid` entry point
(src/lib.rs).  Machine integers are modelled as `Nat`/`Int` (with the
one wrapping cast in `Filey::seek` made explicit); fallible calls
return `Except`; the Python side of each FFI call is modelled by a
response (`PyResp`) supplied by an explicit handle-behaviour record
(`HandleOps`).
-/

/-- Bytes of the underlying stream; their values are only moved around,
never computed with, so `Nat` suffices for `u8`. -/
abbrev Byte := Nat

/-- State of an open regular file: its contents and the current cursor
position (which may point past the end). Models both a Rust
`std::fs::File` and a CPython binary file object opened on the same
bytes. -/
structure FileState where
  content : List Byte
  pos : Nat

/-- Outcome of calling a method on a Python object: a value of the
expected type, a raised exception, or a value `extract` rejects. -/
inductive PyResp (α : Type) where
  | ok (a : α)
  | exn
  | wrongType

/-- Behaviour of a foreign (Python) handle: its `read` and `seek`
methods as state transformers over its own state type `σ`. -/
structure HandleOps (σ : Type) where
  readM : σ → Nat → PyResp (List Byte) × σ
  seekM : σ → Int → Nat → PyResp Int × σ

/-- The I/O error values that can arise in the stream source:
`notFound` from `File::open`, `invalidSeek` from a native seek to a
negative position, `pyExn` from a raised Python exception converted by
pyo3 into an `io::Error`, `badType` from a failed `extract` of the
returned Python value. -/
inductive IOErr where
  | notFound
  | invalidSeek
  | pyExn
  | badType

/-- Mirrors `std::io::SeekFrom`: `Start` carries a `u64`, the others an
`i64`. -/
inductive SeekFrom where
  | Start (off : Nat)
  | Current (off : Int)
  | End (off : Int)

/-- The value of the Rust cast `off as i64` on a `u64`: two's-complement
reinterpretation. -/
def i64OfU64 (n : Nat) : Int :=
  if n < 2 ^ 63 then (n : Int) else (n : Int) - 2 ^ 64

/-- The `(offset, whence)` argument pair that `Filey::seek` passes to the
foreign handle's `seek` method (src/filey.rs lines 46-50). -/
def seekArgs : SeekFrom → Int × Nat
  | .Start off => (i64OfU64 off, 0)
  | .Current off => (off, 1)
  | .End off => (off, 2)

/-- Semantics of `std::io::Write::write` for a `&mut [u8]` of capacity
`cap`, as used by `buf.write(..)` in `Filey::read`: copies
`min cap data.length` bytes and reports that count; it never fails. -/
def sliceWrite (cap : Nat) (data : List Byte) : List Byte × Nat :=
  (data.take cap, min cap data.length)

/-- The stream source (src/filey.rs): an owned native file or a foreign
Python handle of state type `σ`. -/
inductive Filey (σ : Type) where
  | RustFile (f : FileState)
  | PyFileLike (s : σ)

/-- Native `File::read` on a regular file: returns the next
`min n remaining` bytes and advances the cursor. -/
def fileRead (f : FileState) (n : Nat) : List Byte × FileState :=
  let bytes := (f.content.drop f.pos).take n
  (bytes, ⟨f.content, f.pos + bytes.length⟩)

/-- Native `File::seek`: absolute positioning, seeking before position
zero is an error that leaves the cursor unchanged, seeking past the end
is allowed. -/
def rustFileSeek (f : FileState) : SeekFrom → Except IOErr Nat × FileState
  | .Start off => (.ok off, ⟨f.content, off⟩)
  | .Current off =>
    let t : Int := (f.pos : Int) + off
    if 0 ≤ t then (.ok t.toNat, ⟨f.content, t.toNat⟩) else (.error .invalidSeek, f)
  | .End off =>
    let t : Int := (f.content.length : Int) + off
    if 0 ≤ t then (.ok t.toNat, ⟨f.content, t.toNat⟩) else (.error .invalidSeek, f)

/-- `impl Read for Filey` (src/filey.rs lines 27-39).  The result holds
the bytes placed into the caller's buffer; their number is the count the
Rust function returns.  In the foreign branch the handle's `read` method
is called with the buffer length, the returned bytes go through
`buf.write` (`sliceWrite`), a raised exception or a non-bytes return is
converted by the `?` operators into an I/O error. -/
def Filey.read {σ : Type} (ops : HandleOps σ) :
    Filey σ → Nat → Except IOErr (List Byte) × Filey σ
  | .RustFile f, n =>
    let (bytes, f') := fileRead f n
    (.ok bytes, .RustFile f')
  | .PyFileLike s, n =>
    match ops.readM s n with
    | (.ok data, s') => (.ok (sliceWrite n data).1, .PyFileLike s')
    | (.exn, s') => (.error .pyExn, .PyFileLike s')
    | (.wrongType, s') => (.error .badType, .PyFileLike s')

/-- `impl Seek for Filey` (src/filey.rs lines 41-58).  The foreign
branch builds `seekArgs`, calls the handle's `seek`, and extracts the
returned offset as a `u64`: an integer return succeeds exactly when it
lies in the `u64` range `0 ≤ r < 2^64` (a negative integer, an integer
of 2^64 or more, or a non-integer return fails extraction with an
`OverflowError`/`TypeError` that the `?` converts into an I/O
error). -/
def Filey.seek {σ : Type} (ops : HandleOps σ) :
    Filey σ → SeekFrom → Except IOErr Nat × Filey σ
  | .RustFile f, pos =>
    let (r, f') := rustFileSeek f pos
    (r, .RustFile f')
  | .PyFileLike s, pos =>
    match ops.seekM s (seekArgs pos).1 (seekArgs pos).2 with
    | (.ok r, s') =>
      if 0 ≤ r ∧ r < 2 ^ 64 then (.ok r.toNat, .PyFileLike s')
      else (.error .badType, .PyFileLike s')
    | (.exn, s') => (.error .pyExn, .PyFileLike s')
    | (.wrongType, s') => (.error .badType, .PyFileLike s')

/-- Behaviour of a well-formed CPython binary file object opened on the
same bytes as a native file: `read(n)` returns the next
`min n remaining` bytes, `seek(off, whence)` follows the standard
{0=Start,1=Current,2=End} convention and raises `OSError` on a negative
target. -/
def pyFileOps : HandleOps FileState where
  readM := fun s n =>
    let (bytes, s') := fileRead s n
    (.ok bytes, s')
  seekM := fun s off whence =>
    match whence with
    | 0 => if 0 ≤ off then (.ok off, ⟨s.content, off.toNat⟩) else (.exn, s)
    | 1 =>
      let t : Int := (s.pos : Int) + off
      if 0 ≤ t then (.ok t, ⟨s.content, t.toNat⟩) else (.exn, s)
    | 2 =>
      let t : Int := (s.content.length : Int) + off
      if 0 ≤ t then (.ok t, ⟨s.content, t.toNat⟩) else (.exn, s)
    | _ => (.exn, s)

/-- Behaviour of a Python object with no usable `read` or `seek` method:
every method call raises (an `AttributeError`). -/
def exnOps : HandleOps Unit where
  readM := fun s _ => (.exn, s)
  seekM := fun s _ _ => (.exn, s)

/-- The single argument of `read_grid` / `Filey::from`: a `PyObject`
that either extracts as a string (a path) or is some other object,
treated as a foreign handle of state type `σ`. -/
inductive PyVal (σ : Type) where
  | str (s : String)
  | obj (s : σ)

/-- `Filey::from` (src/filey.rs lines 16-24): a string input opens the
named file (failures propagate immediately); any other input is wrapped
as a foreign handle without inspecting it.  `fs` is the file system,
mapping paths to file contents. -/
def Filey.«from» {σ : Type} (fs : String → Option (List Byte)) :
    PyVal σ → Except IOErr (Filey σ)
  | .str path =>
    match fs path with
    | some content => .ok (.RustFile ⟨content, 0⟩)
    | none => .error .notFound
  | .obj s => .ok (.PyFileLike s)

/-- A decoder-side computation against the `Read`+`Seek` capability of a
stream source: a program that interacts with the stream only through
`read` and `seek` calls.  The external `petra_grid` decoder is one such
program. -/
inductive StreamProg (α : Type) where
  | pure (a : α)
  | read (n : Nat) (k : Except IOErr (List Byte) → StreamProg α)
  | seek (pos : SeekFrom) (k : Except IOErr Nat → StreamProg α)

/-- Run a stream program against a stream source. -/
def runProg {σ α : Type} (ops : HandleOps σ) : StreamProg α → Filey σ → α × Filey σ
  | .pure a, f => (a, f)
  | .read n k, f =>
    runProg ops (k (Filey.read ops f n).1) (Filey.read ops f n).2
  | .seek pos k, f =>
    runProg ops (k (Filey.seek ops f pos).1) (Filey.seek ops f pos).2

/-- A single seek is in range for the run: its target is non-negative
and below 2^64, and a `Start` offset fits in an `i64` (as every offset
inside a real file does). -/
def seekOkB (f : FileState) : SeekFrom → Bool
  | .Start off => decide (off < 2 ^ 63)
  | .Current off =>
    decide (0 ≤ (f.pos : Int) + off) && decide ((f.pos : Int) + off < 2 ^ 64)
  | .End off =>
    decide (0 ≤ (f.content.length : Int) + off) &&
      decide ((f.content.length : Int) + off < 2 ^ 64)

/-- The run of a stream program over a given file stays in range: no
seek ever targets a position that is negative or at 2^64 or beyond, and
no `Start` offset falls outside the `i64` range.  Every decode of a
valid grid file is such a run. -/
def goodRun {α : Type} : StreamProg α → FileState → Bool
  | .pure _, _ => true
  | .read n k, f =>
    goodRun (k (.ok (fileRead f n).1)) (fileRead f n).2
  | .seek pos k, f =>
    seekOkB f pos && goodRun (k (rustFileSeek f pos).1) (rustFileSeek f pos).2

/-- The unit enumeration of the external `petra_grid` crate. -/
inductive PgUnitOfMeasure where
  | Feet
  | Meters

/-- The Python-facing `UnitOfMeasure` pyclass (src/lib.rs lines 38-45). -/
inductive UnitOfMeasure where
  | Feet
  | Meters

/-- `impl From for UnitOfMeasure` (src/lib.rs lines 47-54). -/
def uomFrom : PgUnitOfMeasure → UnitOfMeasure
  | .Feet => .Feet
  | .Meters => .Meters

/-- A `time::PrimitiveDateTime` as stored in `created_date`: calendar
fields with microsecond resolution and no timezone. -/
structure DateTime where
  year : Int
  month : Nat
  day : Nat
  hour : Nat
  minute : Nat
  second : Nat
  microsecond : Nat

/-- Proleptic Gregorian leap-year rule, as used by both the `time` crate
and CPython's `datetime`. -/
def isLeapYear (y : Int) : Bool :=
  (y % 4 == 0 && y % 100 != 0) || y % 400 == 0

/-- Length of a calendar month. -/
def daysInMonth (y : Int) (m : Nat) : Nat :=
  if m == 2 then (if isLeapYear y then 29 else 28)
  else if m == 4 || m == 6 || m == 9 || m == 11 then 30
  else 31

/-- The invariant the `time` crate maintains for every
`PrimitiveDateTime` it hands out: a real calendar date with the year in
the crate's supported range -9999..=9999. -/
def dtValidB (d : DateTime) : Bool :=
  decide (-9999 ≤ d.year) && decide (d.year ≤ 9999) &&
    decide (1 ≤ d.month) && decide (d.month ≤ 12) &&
    decide (1 ≤ d.day) && decide (d.day ≤ daysInMonth d.year d.month) &&
    decide (d.hour ≤ 23) && decide (d.minute ≤ 59) &&
    decide (d.second ≤ 59) && decide (d.microsecond ≤ 999999)

/-- A Python `datetime.datetime` value (naive: no tzinfo attached). -/
structure PyDateTime where
  year : Int
  month : Nat
  day : Nat
  hour : Nat
  minute : Nat
  second : Nat
  microsecond : Nat

/-- The Python-facing error value: either an `OSError` (built from an
`io::Error` by pyo3, preserving it) or a `ValueError` carrying a
message. These are the only two categories the boundary layer
produces. -/
inductive PyErr where
  | osError (e : IOErr)
  | valueError (msg : String)

/-- Modelled from the spec: behaviour of the host `PyDateTime::new`
constructor (CPython `datetime.datetime`), which is not part of this
repository.  It accepts exactly the arguments in CPython's documented
ranges — in particular the year must lie in 1..=9999 — and raises a
`ValueError` otherwise. -/
def pyDateTimeNew (year : Int) (month day hour minute second microsecond : Nat) :
    Except PyErr PyDateTime :=
  if 1 ≤ year ∧ year ≤ 9999 ∧ 1 ≤ month ∧ month ≤ 12 ∧
      1 ≤ day ∧ day ≤ daysInMonth year month ∧
      hour ≤ 23 ∧ minute ≤ 59 ∧ second ≤ 59 ∧ microsecond ≤ 999999 then
    .ok ⟨year, month, day, hour, minute, second, microsecond⟩
  else
    .error (.valueError "argument out of range for datetime")

/-- A dense row-major `ndarray::Array2` of `f64`. -/
structure Array2 where
  rows : Nat
  cols : Nat
  data : List Float

/-- A dense row-major `ndarray::Array3` of `f64` with trailing
dimensions 3 × 3 (triangle × vertex × coordinate). -/
structure Array3 where
  n : Nat
  data : List Float

/-- `petra_grid::GridData`: the tagged union of the two grid shapes. -/
inductive GridData where
  | Rectangular (arr : Array2)
  | Triangular (arr : Array3)

/-- `petra_grid::Grid`, the decoded grid record, with the fields the
exposition layer reads (src/lib.rs getters). -/
structure GridRecord where
  version : Nat
  name : String
  size : Nat
  rows : Nat
  columns : Nat
  n_triangles : Nat
  xmin : Float
  xmax : Float
  ymin : Float
  ymax : Float
  xstep : Float
  ystep : Float
  zmin : Float
  zmax : Float
  xyunits : PgUnitOfMeasure
  zunits : PgUnitOfMeasure
  created_date : DateTime
  source_data : String
  unknown_metadata : String
  projection : String
  datum : String
  grid_method : Nat
  projection_code : Nat
  cm : Float
  rlat : Float
  data : GridData

/-- Modelled from the spec: the output contract of the external
`petra_grid` decoder (spec §3, §4.2), whose code is outside this
repository.  The stored array dimensions agree with the `rows`,
`columns` and `n_triangles` fields, `n_triangles == 0` exactly for the
Rectangular variant, and the creation date is a valid `time` crate
datetime. -/
def GridData.shapeOkB : GridData → Nat → Nat → Nat → Bool
  | .Rectangular a, rows, cols, ntri =>
    a.rows == rows && a.cols == cols && a.data.length == rows * cols && ntri == 0
  | .Triangular t, _, _, ntri =>
    t.n == ntri && t.data.length == ntri * 9 && ntri != 0

/-- Modelled from the spec: full well-formedness of a decoder-produced
record, see `GridData.shapeOkB`. -/
def GridRecord.wfB (r : GridRecord) : Bool :=
  r.data.shapeOkB r.rows r.columns r.n_triangles && dtValidB r.created_date

/-- The `Grid` pyclass (src/lib.rs line 59): a newtype over the decoded
record. -/
structure Grid where
  inner : GridRecord

/-- Getter `version` (src/lib.rs lines 64-67). -/
def Grid.get_version (g : Grid) : Nat := g.inner.version

/-- Getter `name`. -/
def Grid.get_name (g : Grid) : String := g.inner.name

/-- Getter `size`. -/
def Grid.get_size (g : Grid) : Nat := g.inner.size

/-- Getter `rows`. -/
def Grid.get_rows (g : Grid) : Nat := g.inner.rows

/-- Getter `columns`. -/
def Grid.get_columns (g : Grid) : Nat := g.inner.columns

/-- Getter `n_triangles` (src/lib.rs lines 97-100). -/
def Grid.get_n_triangles (g : Grid) : Nat := g.inner.n_triangles

/-- Getter `xmin`. -/
def Grid.get_xmin (g : Grid) : Float := g.inner.xmin

/-- Getter `xmax`. -/
def Grid.get_xmax (g : Grid) : Float := g.inner.xmax

/-- Getter `ymin`. -/
def Grid.get_ymin (g : Grid) : Float := g.inner.ymin

/-- Getter `ymax`. -/
def Grid.get_ymax (g : Grid) : Float := g.inner.ymax

/-- Getter `xstep`. -/
def Grid.get_xstep (g : Grid) : Float := g.inner.xstep

/-- Getter `ystep`. -/
def Grid.get_ystep (g : Grid) : Float := g.inner.ystep

/-- Getter `zmin`. -/
def Grid.get_zmin (g : Grid) : Float := g.inner.zmin

/-- Getter `zmax`. -/
def Grid.get_zmax (g : Grid) : Float := g.inner.zmax

/-- Getter `xyunits` (src/lib.rs lines 151-154). -/
def Grid.get_xyunits (g : Grid) : UnitOfMeasure := uomFrom g.inner.xyunits

/-- Getter `zunits`. -/
def Grid.get_zunits (g : Grid) : UnitOfMeasure := uomFrom g.inner.zunits

/-- Getter `created_date` (src/lib.rs lines 163-171): rebuilds the
stored datetime through the fallible host constructor and propagates its
error with `?`. -/
def Grid.get_created_date (g : Grid) : Except PyErr PyDateTime :=
  let dt := g.inner.created_date
  pyDateTimeNew dt.year dt.month dt.day dt.hour dt.minute dt.second dt.microsecond

/-- Getter `source_data`. -/
def Grid.get_source_data (g : Grid) : String := g.inner.source_data

/-- Getter `unknown_metadata`. -/
def Grid.get_unknown_metadata (g : Grid) : String := g.inner.unknown_metadata

/-- Getter `projection`. -/
def Grid.get_projection (g : Grid) : String := g.inner.projection

/-- Getter `datum`. -/
def Grid.get_datum (g : Grid) : String := g.inner.datum

/-- Getter `grid_method`. -/
def Grid.get_grid_method (g : Grid) : Nat := g.inner.grid_method

/-- Getter `projection_code`. -/
def Grid.get_projection_code (g : Grid) : Nat := g.inner.projection_code

/-- Getter `cm`. -/
def Grid.get_cm (g : Grid) : Float := g.inner.cm

/-- Getter `rlat`. -/
def Grid.get_rlat (g : Grid) : Float := g.inner.rlat

/-- The numpy array object handed to Python: `numpy::ToPyArray` copies
an `ndarray` into a numpy array of the same shape with the elements in
the same (row-major) order, so it is modelled as the identity embedding
of the stored array. -/
inductive PyArrayObj where
  | two (a : Array2)
  | three (a : Array3)

/-- Shape of the numpy array as Python sees it. -/
def pyShape : PyArrayObj → List Nat
  | .two a => [a.rows, a.cols]
  | .three a => [a.n, 3, 3]

/-- The elements of the numpy array in row-major order. -/
def pyFlat : PyArrayObj → List Float
  | .two a => a.data
  | .three a => a.data

/-- The elements of the stored grid data in row-major order. -/
def GridData.flat : GridData → List Float
  | .Rectangular a => a.data
  | .Triangular t => t.data

/-- Getter `data` (src/lib.rs lines 255-265): converts whichever array
the tagged union holds with `to_pyarray`. -/
def Grid.get_data (g : Grid) : PyArrayObj :=
  match g.inner.data with
  | .Rectangular arr => .two arr
  | .Triangular arr => .three arr

/-- Getter `is_rectangular` (src/lib.rs lines 267-274). -/
def Grid.get_is_rectangular (g : Grid) : Bool :=
  match g.inner.data with
  | .Rectangular _ => true
  | _ => false

/-- Getter `is_triangular` (src/lib.rs lines 276-283). -/
def Grid.get_is_triangular (g : Grid) : Bool :=
  match g.inner.data with
  | .Triangular _ => true
  | _ => false

/-- The decode error of the external `petra_grid` crate as seen by this
core (spec §4.2): an I/O failure carrying the underlying error, or a
format failure carrying a descriptive message. In src/lib.rs the first
variant is matched as `petra_grid::Error::IOError`. -/
inductive PgError where
  | IOError (e : IOErr)
  | Format (msg : String)

/-- Modelled from the spec: the `Display` rendering of the external
crate's error (used by `format!` in `to_pyerr`); a `Format` error
displays its descriptive message (spec §4.2, §4.4), an I/O error
displays its underlying error. -/
def PgError.display : PgError → String
  | .IOError .notFound => "file not found"
  | .IOError .invalidSeek => "invalid seek to a negative position"
  | .IOError .pyExn => "Python exception"
  | .IOError .badType => "unexpected Python value"
  | .Format msg => msg

/-- `to_pyerr` (src/lib.rs lines 322-327): an `IOError` converts into
the host's `OSError` preserving the underlying error; every other
variant becomes a `PyValueError` displaying the error. -/
def to_pyerr (err : PgError) : PyErr :=
  match err with
  | .IOError e => .osError e
  | e => .valueError e.display

/-- `read_grid` (src/lib.rs lines 293-297), with the external decoder
made explicit as the stream program it is: build the stream source
(construction failures convert to `OSError` via `?`), run the decoder on
it, wrap a decoded record as a `Grid`, translate a decode error with
`to_pyerr`. -/
def read_grid {σ : Type} (fs : String → Option (List Byte)) (ops : HandleOps σ)
    (decoder : StreamProg (Except PgError GridRecord)) (input : PyVal σ) :
    Except PyErr Grid :=
  match Filey.«from» fs input with
  | .error e => .error (.osError e)
  | .ok f =>
    match (runProg ops decoder f).1 with
    | .ok r => .ok ⟨r⟩
    | .error e => .error (to_pyerr e)

/-- Discriminator for `Except` results (`Ok` versus raised error). -/
def exceptOk {ε α : Type} : Except ε α → Bool
  | .ok _ => true
  | .error _ => false

/-- A sample decoded record: a 2 by 2 rectangular grid with the shape
invariants of the decoder contract. -/
def sampleRec : GridRecord where
  version := 2
  name := "SAMPLE"
  size := 4
  rows := 2
  columns := 2
  n_triangles := 0
  xmin := 0.0
  xmax := 100.0
  ymin := 0.0
  ymax := 100.0
  xstep := 100.0
  ystep := 100.0
  zmin := 1.0
  zmax := 4.0
  xyunits := .Feet
  zunits := .Feet
  created_date := ⟨2023, 5, 17, 12, 30, 45, 123456⟩
  source_data := "src"
  unknown_metadata := "C66"
  projection := "TX-27C"
  datum := "NAD27"
  grid_method := 1
  projection_code := 7
  cm := -98.5
  rlat := 29.0
  data := .Rectangular ⟨2, 2, [1.0, 2.0, 3.0, 4.0]⟩

/-- A sample triangular record with one triangle. -/
def sampleTriRec : GridRecord :=
  { sampleRec with
      n_triangles := 1
      data := .Triangular ⟨1, [0.0, 0.0, 1.0, 1.0, 0.0, 2.0, 0.0, 1.0, 3.0]⟩ }

/-- A record whose creation year (0) lies inside the `time` crate's
range but outside the host datetime range 1..=9999. -/
def badDateRec : GridRecord :=
  { sampleRec with created_date := ⟨0, 1, 1, 0, 0, 0, 0⟩ }

/-- An example file system holding one small grid file. -/
def fsEx : String → Option (List Byte) :=
  fun path => if path = "sample.grd" then some [71, 82, 73, 68] else none

/-- An example decoder run: seek to the start, read a header, succeed
with the sample record. -/
def decEx : StreamProg (Except PgError GridRecord) :=
  .seek (.Start 0) (fun _ => .read 4 (fun _ => .pure (.ok sampleRec)))

/-- A foreign handle whose `read` ignores the requested length and
always returns four bytes. -/
def overOps : HandleOps Unit where
  readM := fun s _ => (.ok [9, 9, 9, 9], s)
  seekM := fun s _ _ => (.exn, s)

/-- A foreign handle whose `seek` answers with the integer 2^64, one
past the top of the `u64` range. -/
def hugeSeekOps : HandleOps Unit where
  readM := fun s _ => (.exn, s)
  seekM := fun s _ _ => (.ok (2 ^ 64), s)

/-- A foreign handle whose `seek` answers with the integer -1. -/
def negSeekOps : HandleOps Unit where
  readM := fun s _ => (.exn, s)
  seekM := fun s _ _ => (.ok (-1), s)

example : (Filey.read exnOps (.PyFileLike ()) 4).1 = .error .pyExn := rfl

example :
    (Filey.read pyFileOps (.RustFile ⟨[7, 8, 9], 1⟩) 5).1 = .ok [8, 9] := rfl

example :
    (Filey.seek pyFileOps (.PyFileLike ⟨[7, 8, 9], 1⟩) (.End (-2))).1 = .ok 1 := rfl
/-- Unfolding of `fileRead`. -/
theorem fileRead_eq (f : FileState) (n : Nat) :
    fileRead f n = ((f.content.drop f.pos).take n,
      ⟨f.content, f.pos + ((f.content.drop f.pos).take n).length⟩) := rfl

/-- Native branch of `Filey::read`. -/
theorem filey_read_rust {σ : Type} (ops : HandleOps σ) (f : FileState) (n : Nat) :
    Filey.read ops (.RustFile f) n = (.ok (fileRead f n).1, .RustFile (fileRead f n).2) := rfl

/-- Foreign branch of `Filey::read` on a successful `bytes` return. -/
theorem filey_read_py_ok {σ : Type} (ops : HandleOps σ) (s : σ) (n : Nat)
    (data : List Byte) (s' : σ) (hresp : ops.readM s n = (.ok data, s')) :
    Filey.read ops (.PyFileLike s) n = (.ok (data.take n), .PyFileLike s') := by
  simp only [Filey.read, hresp, sliceWrite]

/-- Native branch of `Filey::seek`. -/
theorem filey_seek_rust {σ : Type} (ops : HandleOps σ) (f : FileState) (pos : SeekFrom) :
    Filey.seek ops (.RustFile f) pos =
      ((rustFileSeek f pos).1, .RustFile (rustFileSeek f pos).2) := rfl

/-- Foreign branch of `Filey::seek` on a successful `u64`-range integer
return. -/
theorem filey_seek_py_ok {σ : Type} (ops : HandleOps σ) (s : σ) (pos : SeekFrom)
    (r : Int) (s' : σ)
    (hresp : ops.seekM s (seekArgs pos).1 (seekArgs pos).2 = (.ok r, s'))
    (hr0 : 0 ≤ r) (hr64 : r < 2 ^ 64) :
    Filey.seek ops (.PyFileLike s) pos = (.ok r.toNat, .PyFileLike s') := by
  simp only [Filey.seek, hresp]
  rw [if_pos ⟨hr0, hr64⟩]

/-- `rustFileSeek` from the start, unconditionally. -/
theorem rustFileSeek_start (f : FileState) (off : Nat) :
    rustFileSeek f (.Start off) = (.ok off, ⟨f.content, off⟩) := rfl

/-- `rustFileSeek` from the current position when the target is in
range. -/
theorem rustFileSeek_current (f : FileState) (off : Int) (h : 0 ≤ (f.pos : Int) + off) :
    rustFileSeek f (.Current off) =
      (.ok ((f.pos : Int) + off).toNat, ⟨f.content, ((f.pos : Int) + off).toNat⟩) := by
  simp only [rustFileSeek]
  rw [if_pos h]

/-- `rustFileSeek` from the end when the target is in range. -/
theorem rustFileSeek_end (f : FileState) (off : Int) (h : 0 ≤ (f.content.length : Int) + off) :
    rustFileSeek f (.End off) =
      (.ok ((f.content.length : Int) + off).toNat,
        ⟨f.content, ((f.content.length : Int) + off).toNat⟩) := by
  simp only [rustFileSeek]
  rw [if_pos h]

/-- The well-formed Python file's `seek` with whence 0 and a
non-negative offset. -/
theorem pyFileOps_seek0 (s : FileState) (off : Int) (h : 0 ≤ off) :
    pyFileOps.seekM s off 0 = (.ok off, ⟨s.content, off.toNat⟩) := by
  simp only [pyFileOps]
  rw [if_pos h]

/-- The well-formed Python file's `seek` with whence 1 and an in-range
target. -/
theorem pyFileOps_seek1 (s : FileState) (off : Int) (h : 0 ≤ (s.pos : Int) + off) :
    pyFileOps.seekM s off 1 =
      (.ok ((s.pos : Int) + off), ⟨s.content, ((s.pos : Int) + off).toNat⟩) := by
  simp only [pyFileOps]
  rw [if_pos h]

/-- The well-formed Python file's `seek` with whence 2 and an in-range
target. -/
theorem pyFileOps_seek2 (s : FileState) (off : Int) (h : 0 ≤ (s.content.length : Int) + off) :
    pyFileOps.seekM s off 2 =
      (.ok ((s.content.length : Int) + off),
        ⟨s.content, ((s.content.length : Int) + off).toNat⟩) := by
  simp only [pyFileOps]
  rw [if_pos h]

/-- The well-formed Python file's `read`. -/
theorem pyFileOps_read (s : FileState) (n : Nat) :
    pyFileOps.readM s n = (.ok (fileRead s n).1, (fileRead s n).2) := rfl

/-- Lock-step equivalence of the two `Filey` branches: over the same
underlying bytes, as long as the run stays in range, a stream program
sees identical results from the native-file branch and from a
well-formed Python file handle, and the two cursors stay equal. -/
theorem runProg_equiv {α : Type} (p : StreamProg α) :
    ∀ f : FileState, goodRun p f = true →
      (runProg pyFileOps p (.RustFile f)).1 = (runProg pyFileOps p (.PyFileLike f)).1 ∧
      ∃ g : FileState,
        (runProg pyFileOps p (.RustFile f)).2 = .RustFile g ∧
        (runProg pyFileOps p (.PyFileLike f)).2 = .PyFileLike g := by
  induction p with
  | pure a => exact fun f _ => ⟨rfl, f, rfl, rfl⟩
  | read n k ih =>
    intro f hgood
    simp only [goodRun] at hgood
    have hlen : ((f.content.drop f.pos).take n).length ≤ n :=
      List.length_take_le n (f.content.drop f.pos)
    have htake : ((f.content.drop f.pos).take n).take n = (f.content.drop f.pos).take n :=
      List.take_of_length_le hlen
    have hpy : Filey.read pyFileOps (.PyFileLike f) n =
        (.ok (fileRead f n).1, .PyFileLike (fileRead f n).2) := by
      rw [filey_read_py_ok pyFileOps f n (fileRead f n).1 (fileRead f n).2 (pyFileOps_read f n)]
      rw [fileRead_eq]
      simp only [htake]
    have h := ih (.ok (fileRead f n).1) (fileRead f n).2 hgood
    simp only [runProg, filey_read_rust, hpy]
    exact h
  | seek pos k ih =>
    intro f hgood
    simp only [goodRun, Bool.and_eq_true] at hgood
    obtain ⟨hokb, hgood'⟩ := hgood
    cases pos with
    | Start off =>
      have hlt : off < 2 ^ 63 := by
        simpa only [seekOkB, decide_eq_true_eq] using hokb
      have hargs : seekArgs (.Start off) = ((off : Int), 0) := by
        simp only [seekArgs, i64OfU64, if_pos hlt]
      have hpy : Filey.seek pyFileOps (.PyFileLike f) (.Start off) =
          (.ok off, .PyFileLike ⟨f.content, off⟩) := by
        have hresp : pyFileOps.seekM f (seekArgs (.Start off)).1 (seekArgs (.Start off)).2 =
            (.ok (off : Int), ⟨f.content, ((off : Int)).toNat⟩) := by
          rw [hargs]
          exact pyFileOps_seek0 f (off : Int) (Int.natCast_nonneg off)
        have hlt64 : (off : Int) < 2 ^ 64 := by
          have h63 : (off : Int) < 2 ^ 63 := by exact_mod_cast hlt
          calc (off : Int) < 2 ^ 63 := h63
            _ < 2 ^ 64 := by norm_num
        have := filey_seek_py_ok pyFileOps f (.Start off) (off : Int)
          ⟨f.content, ((off : Int)).toNat⟩ hresp (Int.natCast_nonneg off) hlt64
        simpa using this
      rw [rustFileSeek_start] at hgood'
      have h := ih (.ok off) ⟨f.content, off⟩ hgood'
      simp only [runProg, filey_seek_rust, rustFileSeek_start, hpy]
      exact h
    | Current off =>
      simp only [seekOkB, Bool.and_eq_true, decide_eq_true_eq] at hokb
      obtain ⟨hok, hok64⟩ := hokb
      have hpy : Filey.seek pyFileOps (.PyFileLike f) (.Current off) =
          (.ok ((f.pos : Int) + off).toNat,
            .PyFileLike ⟨f.content, ((f.pos : Int) + off).toNat⟩) := by
        have hresp : pyFileOps.seekM f (seekArgs (.Current off)).1 (seekArgs (.Current off)).2 =
            (.ok ((f.pos : Int) + off), ⟨f.content, ((f.pos : Int) + off).toNat⟩) :=
          pyFileOps_seek1 f off hok
        exact filey_seek_py_ok pyFileOps f (.Current off) ((f.pos : Int) + off)
          ⟨f.content, ((f.pos : Int) + off).toNat⟩ hresp hok hok64
      rw [rustFileSeek_current f off hok] at hgood'
      have h := ih (.ok ((f.pos : Int) + off).toNat) ⟨f.content, ((f.pos : Int) + off).toNat⟩ hgood'
      simp only [runProg, filey_seek_rust, rustFileSeek_current f off hok, hpy]
      exact h
    | End off =>
      simp only [seekOkB, Bool.and_eq_true, decide_eq_true_eq] at hokb
      obtain ⟨hok, hok64⟩ := hokb
      have hpy : Filey.seek pyFileOps (.PyFileLike f) (.End off) =
          (.ok ((f.content.length : Int) + off).toNat,
            .PyFileLike ⟨f.content, ((f.content.length : Int) + off).toNat⟩) := by
        have hresp : pyFileOps.seekM f (seekArgs (.End off)).1 (seekArgs (.End off)).2 =
            (.ok ((f.content.length : Int) + off),
              ⟨f.content, ((f.content.length : Int) + off).toNat⟩) :=
          pyFileOps_seek2 f off hok
        exact filey_seek_py_ok pyFileOps f (.End off) ((f.content.length : Int) + off)
          ⟨f.content, ((f.content.length : Int) + off).toNat⟩ hresp hok hok64
      rw [rustFileSeek_end f off hok] at hgood'
      have h := ih (.ok ((f.content.length : Int) + off).toNat)
        ⟨f.content, ((f.content.length : Int) + off).toNat⟩ hgood'
      simp only [runProg, filey_seek_rust, rustFileSeek_end f off hok, hpy]
      exact h

/-- On a `time`-crate-valid date, the host datetime constructor succeeds
exactly when the year is at least 1 (its upper bound 9999 is shared with
the `time` crate, all other fields are always in range). -/
theorem pyDateTimeNew_ok_iff (d : DateTime) (hdt : dtValidB d = true) :
    exceptOk (pyDateTimeNew d.year d.month d.day d.hour d.minute d.second d.microsecond) = true
      ↔ 1 ≤ d.year := by
  simp only [dtValidB, Bool.and_eq_true, decide_eq_true_eq] at hdt
  obtain ⟨⟨⟨⟨⟨⟨⟨⟨⟨hA, hB⟩, hC⟩, hD⟩, hE⟩, hF⟩, hG⟩, hH⟩, hI⟩, hJ⟩ := hdt
  unfold pyDateTimeNew
  by_cases hy : 1 ≤ d.year
  · rw [if_pos ⟨hy, hB, hC, hD, hE, hF, hG, hH, hI, hJ⟩]
    simpa [exceptOk] using hy
  · rw [if_neg (fun hc => hy hc.1)]
    simpa [exceptOk] using hy

/-- C1: for every file in the file system and every in-range decoder
run, `read_grid` on the path and `read_grid` on a well-formed foreign
file handle opened on the same bytes return identical results — in
particular field-for-field identical `Grid` values: the `RustFile` and
`PyFileLike` branches are equivalent as Read+Seek implementations. -/
theorem read_grid_stream_source_equiv
    (fs : String → Option (List Byte)) (path : String) (content : List Byte)
    (decoder : StreamProg (Except PgError GridRecord))
    (hfs : fs path = some content)
    (hgood : goodRun decoder ⟨content, 0⟩ = true) :
    read_grid fs pyFileOps decoder (.str path) =
      read_grid fs pyFileOps decoder (.obj ⟨content, 0⟩) := by
  have h := runProg_equiv decoder ⟨content, 0⟩ hgood
  simp only [read_grid, Filey.«from», hfs]
  rw [h.1]

/-- C1 witness: the equivalence evaluated on a concrete file system,
file and decoder run. -/
theorem read_grid_stream_source_equiv_witness :
    read_grid fsEx pyFileOps decEx (.str "sample.grd") =
      read_grid fsEx pyFileOps decEx (.obj ⟨[71, 82, 73, 68], 0⟩) :=
  read_grid_stream_source_equiv fsEx "sample.grd" [71, 82, 73, 68] decEx rfl rfl

/-- C4: a foreign read request of `n` bytes answered with `k ≤ n` bytes
returns exactly those `k` bytes with count `k`; a short or zero-length
return is never converted into an error. -/
theorem foreign_read_short_read_ok {σ : Type} (ops : HandleOps σ) (s : σ) (n : Nat)
    (data : List Byte) (s' : σ)
    (hresp : ops.readM s n = (.ok data, s')) (hlen : data.length ≤ n) :
    Filey.read ops (.PyFileLike s) n = (.ok data, .PyFileLike s') ∧
      (sliceWrite n data).2 = data.length := by
  constructor
  · rw [filey_read_py_ok ops s n data s' hresp, List.take_of_length_le hlen]
  · simp [sliceWrite, Nat.min_eq_right hlen]

/-- C4 witness: a request for 5 bytes answered with the 2 remaining
bytes of the stream. -/
theorem foreign_read_short_read_ok_witness :
    Filey.read pyFileOps (.PyFileLike ⟨[1, 2], 0⟩) 5 =
        (.ok [1, 2], .PyFileLike ⟨[1, 2], 2⟩) ∧
      (sliceWrite 5 [1, 2]).2 = 2 :=
  foreign_read_short_read_ok pyFileOps ⟨[1, 2], 0⟩ 5 [1, 2] ⟨[1, 2], 2⟩ rfl (by decide)

/-- C9: a foreign read answered with more than the requested `n` bytes
is silently truncated — exactly the first `n` bytes land in the buffer,
the reported count is `n`, and no error is raised; the reported count
never exceeds the request. -/
theorem foreign_read_excess_truncated {σ : Type} (ops : HandleOps σ) (s : σ) (n : Nat)
    (data : List Byte) (s' : σ)
    (hresp : ops.readM s n = (.ok data, s')) (hlen : n < data.length) :
    Filey.read ops (.PyFileLike s) n = (.ok (data.take n), .PyFileLike s') ∧
      (data.take n).length = n ∧ (sliceWrite n data).2 = n ∧
      ∀ (m : Nat) (d : List Byte), (sliceWrite m d).2 ≤ m := by
  refine ⟨filey_read_py_ok ops s n data s' hresp, ?_, ?_, ?_⟩
  · simp [List.length_take, Nat.min_eq_left (le_of_lt hlen)]
  · simp [sliceWrite, Nat.min_eq_left (le_of_lt hlen)]
  · intro m d
    simp only [sliceWrite]
    exact Nat.min_le_left m d.length

/-- C9 witness: a request for 2 bytes answered with 4 bytes is cut to
the first 2. -/
theorem foreign_read_excess_truncated_witness :
    Filey.read overOps (.PyFileLike ()) 2 = (.ok [9, 9], .PyFileLike ()) ∧
      ([9, 9, 9, 9].take 2).length = 2 ∧ (sliceWrite 2 [9, 9, 9, 9]).2 = 2 ∧
      ∀ (m : Nat) (d : List Byte), (sliceWrite m d).2 ≤ m :=
  foreign_read_excess_truncated overOps () 2 [9, 9, 9, 9] () rfl (by decide)

/-- C5 counterexample: the protocol is not followed verbatim on either
side of the call.  Outbound, a `SeekFrom::Start` offset of 2^63 is not
passed unchanged: the `as i64` cast turns it into -2^63.  Inbound, the
stream source does not always return the integer offset the handle
returns: a handle answering -1 or 2^64 gets an I/O error back (the
`u64` extraction fails) instead of having its integer returned. -/
theorem seek_protocol_cex :
    (seekArgs (.Start (2 ^ 63))).1 ≠ ((2 ^ 63 : Nat) : Int) ∧
    Filey.seek hugeSeekOps (.PyFileLike ()) (.Current 0) =
      (.error .badType, .PyFileLike ()) ∧
    (Filey.seek hugeSeekOps (.PyFileLike ()) (.Current 0)).1 ≠ .ok (2 ^ 64) ∧
    Filey.seek negSeekOps (.PyFileLike ()) (.Current 0) =
      (.error .badType, .PyFileLike ()) := by
  refine ⟨by decide, rfl, ?_, rfl⟩
  intro h
  have h' : (Except.error IOErr.badType : Except IOErr Nat) = .ok (2 ^ 64) := h
  exact Except.noConfusion h'

/-- C5 amended: the stream source invokes the foreign handle's `seek`
with whence exactly 0 for Start, 1 for Current and 2 for End; the offset
is passed unchanged for Current and End always, and for Start whenever
it is below 2^63 (the `as i64` cast reinterprets larger `u64` offsets
two's-complement); and the stream source returns exactly the integer the
handle returns whenever that integer is representable as a `u64`
(0 ≤ r < 2^64), while an integer return outside that range fails the
`u64` extraction and surfaces as an I/O error. -/
theorem seek_protocol_amended {σ : Type} (ops : HandleOps σ) (s : σ) (pos : SeekFrom)
    (r : Int) (s' : σ)
    (hresp : ops.seekM s (seekArgs pos).1 (seekArgs pos).2 = (.ok r, s'))
    (hr0 : 0 ≤ r) (hr64 : r < 2 ^ 64) :
    (∀ off : Nat, (seekArgs (.Start off)).2 = 0) ∧
    (∀ off : Int, seekArgs (.Current off) = (off, 1)) ∧
    (∀ off : Int, seekArgs (.End off) = (off, 2)) ∧
    (∀ off : Nat, off < 2 ^ 63 → (seekArgs (.Start off)).1 = (off : Int)) ∧
    Filey.seek ops (.PyFileLike s) pos = (.ok r.toNat, .PyFileLike s') ∧
    (r.toNat : Int) = r ∧
    (∀ (s2 s2' : σ) (pos2 : SeekFrom) (r2 : Int),
      ops.seekM s2 (seekArgs pos2).1 (seekArgs pos2).2 = (.ok r2, s2') →
      ¬(0 ≤ r2 ∧ r2 < 2 ^ 64) →
        Filey.seek ops (.PyFileLike s2) pos2 = (.error .badType, .PyFileLike s2')) := by
  refine ⟨fun _ => rfl, fun _ => rfl, fun _ => rfl, ?_,
    filey_seek_py_ok ops s pos r s' hresp hr0 hr64, Int.toNat_of_nonneg hr0, ?_⟩
  · intro off hoff
    simp only [seekArgs, i64OfU64, if_pos hoff]
  · intro s2 s2' pos2 r2 hresp2 hout
    simp only [Filey.seek, hresp2]
    rw [if_neg hout]

/-- C5 witness: a relative seek by 0 on a handle positioned at 0. -/
theorem seek_protocol_amended_witness :
    Filey.seek pyFileOps (.PyFileLike (⟨[], 0⟩ : FileState)) (.Current 0) =
      (.ok 0, .PyFileLike ⟨[], 0⟩) :=
  (seek_protocol_amended pyFileOps ⟨[], 0⟩ (.Current 0) 0 ⟨[], 0⟩ rfl
    (by decide) (by decide)).2.2.2.2.1

/-- C2 counterexample: the accessors are not all total.  On a record the
decoder can produce — valid for the `time` crate (year 0, a real
calendar date) and satisfying the shape invariants — `created_date`
returns an error instead of a value. -/
theorem created_date_not_total_cex :
    dtValidB badDateRec.created_date = true ∧
    GridData.shapeOkB badDateRec.data badDateRec.rows badDateRec.columns
      badDateRec.n_triangles = true ∧
    Grid.get_created_date ⟨badDateRec⟩ =
      .error (.valueError "argument out of range for datetime") :=
  ⟨rfl, rfl, rfl⟩

/-- C2 amended: every accessor except `created_date` is a plain total
field read; `created_date` returns a value exactly when the stored year
lies in the host datetime range 1..=9999 (its other fields are always in
range for a `time`-crate date), and on success returns the stored
calendar fields unchanged. -/
theorem created_date_total_iff (g : Grid) (hdt : dtValidB g.inner.created_date = true) :
    (exceptOk (Grid.get_created_date g) = true ↔ 1 ≤ g.inner.created_date.year) ∧
    (1 ≤ g.inner.created_date.year →
      Grid.get_created_date g = .ok ⟨g.inner.created_date.year, g.inner.created_date.month,
        g.inner.created_date.day, g.inner.created_date.hour, g.inner.created_date.minute,
        g.inner.created_date.second, g.inner.created_date.microsecond⟩) := by
  constructor
  · exact pyDateTimeNew_ok_iff g.inner.created_date hdt
  · intro hy
    simp only [dtValidB, Bool.and_eq_true, decide_eq_true_eq] at hdt
    obtain ⟨⟨⟨⟨⟨⟨⟨⟨⟨hA, hB⟩, hC⟩, hD⟩, hE⟩, hF⟩, hG⟩, hH⟩, hI⟩, hJ⟩ := hdt
    unfold Grid.get_created_date pyDateTimeNew
    rw [if_pos ⟨hy, hB, hC, hD, hE, hF, hG, hH, hI, hJ⟩]

/-- C2 witness: on the sample record (year 2023) the accessor succeeds
and returns the stored calendar fields. -/
theorem created_date_total_iff_witness :
    (exceptOk (Grid.get_created_date ⟨sampleRec⟩) = true ↔
      1 ≤ sampleRec.created_date.year) ∧
    (1 ≤ sampleRec.created_date.year →
      Grid.get_created_date ⟨sampleRec⟩ = .ok ⟨2023, 5, 17, 12, 30, 45, 123456⟩) :=
  created_date_total_iff ⟨sampleRec⟩ rfl

/-- C3: the error translator maps `IOError e` to the host I/O category
preserving `e`, maps `Format msg` to the host value category carrying
`msg` as its description, and produces no other error shape. -/
theorem to_pyerr_total_mapping :
    (∀ e : IOErr, to_pyerr (.IOError e) = .osError e) ∧
    (∀ msg : String, to_pyerr (.Format msg) = .valueError msg) ∧
    (∀ err : PgError,
      (∃ e, to_pyerr err = .osError e) ∨ (∃ msg, to_pyerr err = .valueError msg)) := by
  refine ⟨fun _ => rfl, fun _ => rfl, fun err => ?_⟩
  cases err with
  | IOError e => exact .inl ⟨e, rfl⟩
  | Format msg => exact .inr ⟨msg, rfl⟩

/-- C6: on a well-formed record the data accessor exposes exactly shape
`(rows, columns)` for the Rectangular variant and `(n_triangles, 3, 3)`
for the Triangular variant, with the decoded elements passed through in
their original order. -/
theorem get_data_shape_order (g : Grid) (hwf : g.inner.wfB = true) :
    (g.get_is_rectangular = true →
      pyShape g.get_data = [g.inner.rows, g.inner.columns]) ∧
    (g.get_is_triangular = true →
      pyShape g.get_data = [g.inner.n_triangles, 3, 3]) ∧
    pyFlat g.get_data = g.inner.data.flat := by
  simp only [GridRecord.wfB, Bool.and_eq_true] at hwf
  obtain ⟨hshape, -⟩ := hwf
  cases hdata : g.inner.data with
  | Rectangular arr =>
    rw [hdata] at hshape
    simp only [GridData.shapeOkB, Bool.and_eq_true, beq_iff_eq] at hshape
    obtain ⟨⟨⟨hr, hc⟩, -⟩, -⟩ := hshape
    refine ⟨fun _ => ?_, fun habs => ?_, ?_⟩
    · simp only [Grid.get_data, hdata, pyShape, hr, hc]
    · simp only [Grid.get_is_triangular, hdata] at habs
      exact Bool.noConfusion habs
    · simp only [Grid.get_data, hdata, pyFlat, GridData.flat]
  | Triangular arr =>
    rw [hdata] at hshape
    simp only [GridData.shapeOkB, Bool.and_eq_true, beq_iff_eq] at hshape
    obtain ⟨⟨hn, -⟩, -⟩ := hshape
    refine ⟨fun habs => ?_, fun _ => ?_, ?_⟩
    · simp only [Grid.get_is_rectangular, hdata] at habs
      exact Bool.noConfusion habs
    · simp only [Grid.get_data, hdata, pyShape, hn]
    · simp only [Grid.get_data, hdata, pyFlat, GridData.flat]

/-- C6 witness: the sample 2 by 2 rectangular grid exposes shape (2, 2)
and its four values in decoded order. -/
theorem get_data_shape_order_witness :
    (Grid.get_is_rectangular ⟨sampleRec⟩ = true →
      pyShape (Grid.get_data ⟨sampleRec⟩) = [2, 2]) ∧
    (Grid.get_is_triangular ⟨sampleRec⟩ = true →
      pyShape (Grid.get_data ⟨sampleRec⟩) = [0, 3, 3]) ∧
    pyFlat (Grid.get_data ⟨sampleRec⟩) = [1.0, 2.0, 3.0, 4.0] :=
  get_data_shape_order ⟨sampleRec⟩ rfl

/-- C7: on a well-formed record exactly one of `is_rectangular` and
`is_triangular` is true, and `n_triangles == 0` holds exactly when
`is_rectangular` does. -/
theorem grid_variant_invariant (g : Grid) (hwf : g.inner.wfB = true) :
    (g.get_is_rectangular = true ↔ g.get_is_triangular = false) ∧
    (g.get_n_triangles = 0 ↔ g.get_is_rectangular = true) := by
  simp only [GridRecord.wfB, Bool.and_eq_true] at hwf
  obtain ⟨hshape, -⟩ := hwf
  cases hdata : g.inner.data with
  | Rectangular arr =>
    rw [hdata] at hshape
    simp only [GridData.shapeOkB, Bool.and_eq_true, beq_iff_eq] at hshape
    obtain ⟨-, hz⟩ := hshape
    simp only [Grid.get_is_rectangular, Grid.get_is_triangular, Grid.get_n_triangles, hdata]
    exact ⟨by simp, by simp [hz]⟩
  | Triangular arr =>
    rw [hdata] at hshape
    simp only [GridData.shapeOkB, Bool.and_eq_true, beq_iff_eq, bne_iff_ne] at hshape
    obtain ⟨-, hz⟩ := hshape
    simp only [Grid.get_is_rectangular, Grid.get_is_triangular, Grid.get_n_triangles, hdata]
    exact ⟨by simp, by simp [hz]⟩

/-- C7 witness: the invariant evaluated on the sample rectangular
grid. -/
theorem grid_variant_invariant_witness :
    (Grid.get_is_rectangular ⟨sampleRec⟩ = true ↔
      Grid.get_is_triangular ⟨sampleRec⟩ = false) ∧
    (Grid.get_n_triangles ⟨sampleRec⟩ = 0 ↔ Grid.get_is_rectangular ⟨sampleRec⟩ = true) :=
  grid_variant_invariant ⟨sampleRec⟩ rfl

/-- C8: every misbehaviour of the foreign handle — a raised exception or
a wrongly typed return from `read` or `seek`, including a negative
(hence non-`u64`) seek result — surfaces from the stream source as an
I/O error value, never as a wrong byte count or offset; the translator
keeps the I/O category (never a ValueError), so a decode failing on a
stream I/O error surfaces from `read_grid` as an OSError. -/
theorem foreign_failure_io_category :
    (∀ (σ : Type) (ops : HandleOps σ) (s s' : σ) (n : Nat),
      ops.readM s n = (.exn, s') →
        Filey.read ops (.PyFileLike s) n = (.error .pyExn, .PyFileLike s')) ∧
    (∀ (σ : Type) (ops : HandleOps σ) (s s' : σ) (n : Nat),
      ops.readM s n = (.wrongType, s') →
        Filey.read ops (.PyFileLike s) n = (.error .badType, .PyFileLike s')) ∧
    (∀ (σ : Type) (ops : HandleOps σ) (s s' : σ) (pos : SeekFrom),
      ops.seekM s (seekArgs pos).1 (seekArgs pos).2 = (.exn, s') →
        Filey.seek ops (.PyFileLike s) pos = (.error .pyExn, .PyFileLike s')) ∧
    (∀ (σ : Type) (ops : HandleOps σ) (s s' : σ) (pos : SeekFrom),
      ops.seekM s (seekArgs pos).1 (seekArgs pos).2 = (.wrongType, s') →
        Filey.seek ops (.PyFileLike s) pos = (.error .badType, .PyFileLike s')) ∧
    (∀ (σ : Type) (ops : HandleOps σ) (s s' : σ) (pos : SeekFrom) (r : Int),
      ops.seekM s (seekArgs pos).1 (seekArgs pos).2 = (.ok r, s') → r < 0 →
        Filey.seek ops (.PyFileLike s) pos = (.error .badType, .PyFileLike s')) ∧
    (∀ e : IOErr, to_pyerr (.IOError e) = .osError e ∧
      ∀ msg : String, to_pyerr (.IOError e) ≠ .valueError msg) ∧
    (∀ (σ : Type) (fs : String → Option (List Byte)) (ops : HandleOps σ)
        (decoder : StreamProg (Except PgError GridRecord)) (input : PyVal σ)
        (fy : Filey σ) (e : IOErr),
      Filey.«from» fs input = .ok fy →
      (runProg ops decoder fy).1 = .error (.IOError e) →
        read_grid fs ops decoder input = .error (.osError e)) := by
  refine ⟨?_, ?_, ?_, ?_, ?_, ?_, ?_⟩
  · intro σ ops s s' n hresp
    simp only [Filey.read, hresp]
  · intro σ ops s s' n hresp
    simp only [Filey.read, hresp]
  · intro σ ops s s' pos hresp
    simp only [Filey.seek, hresp]
  · intro σ ops s s' pos hresp
    simp only [Filey.seek, hresp]
  · intro σ ops s s' pos r hresp hr
    simp only [Filey.seek, hresp]
    rw [if_neg (fun hc => absurd hc.1 (not_le.mpr hr))]
  · intro e
    exact ⟨rfl, fun msg h => PyErr.noConfusion h⟩
  · intro σ fs ops decoder input fy e hfrom hrun
    simp only [read_grid, hfrom, hrun]
    rfl

/-- C8 witness: a handle that raises on `read` makes the stream source
return an I/O error. -/
theorem foreign_failure_io_category_witness :
    Filey.read exnOps (.PyFileLike ()) 4 = (.error .pyExn, .PyFileLike ()) :=
  foreign_failure_io_category.1 Unit exnOps () () 4 rfl

/-- C10: any non-string input is accepted by `Filey::from` as a foreign
handle without any check of its methods (construction never fails and
never consults the handle), a missing method only surfaces as an I/O
error at the first read or seek of the decode, while for a string input
a failure to open the file is raised immediately from construction
(and propagates out of `read_grid` as an OSError before any decoding). -/
theorem from_classification_lazy :
    (∀ (σ : Type) (fs : String → Option (List Byte)) (s : σ),
      Filey.«from» fs (.obj s) = .ok (.PyFileLike s)) ∧
    (∀ n : Nat,
      Filey.read exnOps (.PyFileLike ()) n = (.error .pyExn, .PyFileLike ())) ∧
    (∀ pos : SeekFrom,
      Filey.seek exnOps (.PyFileLike ()) pos = (.error .pyExn, .PyFileLike ())) ∧
    (∀ (σ : Type) (fs : String → Option (List Byte)) (path : String),
      fs path = none → @Filey.«from» σ fs (.str path) = .error .notFound) ∧
    (∀ (σ : Type) (fs : String → Option (List Byte)) (ops : HandleOps σ)
        (decoder : StreamProg (Except PgError GridRecord)) (path : String),
      fs path = none →
        read_grid fs ops decoder (.str path) = .error (.osError .notFound)) := by
  refine ⟨fun _ _ _ => rfl, fun _ => rfl, ?_, ?_, ?_⟩
  · intro pos
    simp only [Filey.seek, exnOps]
  · intro σ fs path hfs
    simp only [Filey.«from», hfs]
  · intro σ fs ops decoder path hfs
    simp only [read_grid, Filey.«from», hfs]

/-- C10 witness: a missing file raised at construction, evaluated on a
concrete empty file system. -/
theorem from_classification_lazy_witness :
    @Filey.«from» Unit (fun _ => none) (.str "missing.grd") = .error .notFound :=
  from_classification_lazy.2.2.2.1 Unit (fun _ => none) "missing.grd" rfl
